import Mathlib

/-!
Verification of the `DialogueSummarizer` component
(`src/dialogue_summarizer.py`) against its behavioral specification.

The component is a thin wrapper around an external generative-model
library.  We embed it shallowly: the external capability (model/tokenizer
acquisition, tokenization, generation, decoding) is an explicit
environment of functions, the summarizer's mutable attributes become an
explicit state record, and each Python method becomes a Lean function on
that state.  Exceptions raised by the external loader are modelled as
`Except` results of the environment; Python's null-dereference failures
(`self.tokenizer(...)` / `self.model.generate(...)` when the attribute is
still `None`) become explicit `PyError` values.
-/

namespace DialogueSum

/-- Opaque handle to a loaded generative model (the embedding only needs
identity, so a natural number suffices). -/
abbrev ModelHandle := Nat

/-- Opaque handle to the tokenizer paired with a model. -/
abbrev TokenizerHandle := Nat

/-- The external generative-model capability used by the summarizer:
`modelResult` / `tokenizerResult` model `AutoModelForSeq2SeqLM.from_pretrained`
and `AutoTokenizer.from_pretrained` (an `Except.error` models the exception
raised for an unknown or unreachable identifier), `tokenize` models
`tokenizer(prompt, return_tensors="pt", truncation=True)`, `generate`
models `model.generate(input_ids, max_new_tokens, num_beams,
early_stopping)` returning a list of generated token sequences, and
`decode` models `tokenizer.decode(ids, skip_special_tokens)`. -/
structure Env where
  modelResult : String → Except String ModelHandle
  tokenizerResult : String → Except String TokenizerHandle
  tokenize : TokenizerHandle → String → List Nat
  generate : ModelHandle → List Nat → Nat → Nat → Bool → List (List Nat)
  decode : TokenizerHandle → List Nat → Bool → String

/-- The mutable attributes of a `DialogueSummarizer` instance:
`model_name`, `model`, `tokenizer`, `is_loaded`. -/
structure SummarizerState where
  model_name : String
  model : Option ModelHandle
  tokenizer : Option TokenizerHandle
  is_loaded : Bool
deriving DecidableEq

namespace DialogueSummarizer

/-- Default for the `model_name` constructor argument. -/
def defaultModelName : String := "google/flan-t5-base"

/-- Embedding of `DialogueSummarizer.__init__`: both handles start out
unset and the loaded flag false. -/
def init (model_name : String) : SummarizerState :=
  { model_name := model_name, model := none, tokenizer := none, is_loaded := false }

/-- Embedding of `DialogueSummarizer.load_model`.  The Python body runs a
`try` block that assigns `self.model`, then `self.tokenizer`, then sets
`self.is_loaded = True` and prints a success message; on any exception it
prints a diagnostic and sets `self.is_loaded = False`.  Crucially, an
exception raised while acquiring the tokenizer happens after `self.model`
was already assigned, and the handler does not reset it.  The returned
list of strings collects what was printed; the function is total, which
reflects that `load_model` never propagates the loader's exception. -/
def load_model (env : Env) (s : SummarizerState) : SummarizerState × List String :=
  match env.modelResult s.model_name with
  | Except.error e =>
      ({ s with is_loaded := false }, ["❌ Error loading model: " ++ e])
  | Except.ok m =>
      match env.tokenizerResult s.model_name with
      | Except.error e =>
          ({ s with model := some m, is_loaded := false },
           ["❌ Error loading model: " ++ e])
      | Except.ok t =>
          ({ s with model := some m, tokenizer := some t, is_loaded := true },
           ["✅ Model " ++ s.model_name ++ " loaded successfully!"])

/-- Embedding of `DialogueSummarizer._get_one_shot_example` (a fixed
triple-quoted literal in the source). -/
def get_one_shot_example : String :=
  "Dialogue:\n#Person1#: What time is it, Tom?\n#Person2#: Just a minute. It's ten to nine by my watch.\n#Person1#: Is it? I had no idea it was so late. I must be off now.\n#Person2#: What's the hurry?\n#Person1#: I must catch the nine-thirty train.\n#Person2#: You've plenty of time yet. The railway station is very close.\n\nSummary: #Person1# is in a hurry to catch a train. Tom tells #Person1# there is plenty of time."

/-- The second fixed example literal inside
`DialogueSummarizer._get_few_shot_examples`. -/
def second_example : String :=
  "Dialogue:\n#Person1#: May, do you mind helping me prepare for the picnic?\n#Person2#: Sure. Have you checked the weather report?\n#Person1#: Yes. It says it will be sunny all day.\n\nSummary: Mom asks May to help prepare for the picnic and May agrees."

/-- Embedding of `DialogueSummarizer._get_few_shot_examples`:
`"\n\n".join([one_shot_example, second_example])`. -/
def get_few_shot_examples : String :=
  String.intercalate "\n\n" [get_one_shot_example, second_example]

/-- Embedding of `DialogueSummarizer._create_prompt`: a pure dispatch on
the exact (case-sensitive) method string. -/
def create_prompt (dialogue method : String) : String :=
  if method = "zero-shot" then
    "Summarize the following conversation:\n\n" ++ dialogue ++ "\n\nSummary:"
  else if method = "one-shot" then
    get_one_shot_example ++ "\n\nDialogue:\n" ++ dialogue ++ "\n\nSummary:"
  else if method = "few-shot" then
    get_few_shot_examples ++ "\n\nDialogue:\n" ++ dialogue ++ "\n\nSummary:"
  else
    "Summarize this dialogue: " ++ dialogue

/-- Failure modes of `summarize` that come from Python's own semantics
rather than the external capability: calling the absent tokenizer
(`self.tokenizer(prompt)` with `self.tokenizer = None`), calling
`.generate` on the absent model, and indexing an empty output batch. -/
inductive PyError where
  | nullTokenizer
  | nullModel
  | indexError
deriving DecidableEq

/-- Record of one invocation of the external generation capability, with
the exact arguments passed by `summarize`. -/
structure GenCall where
  model : ModelHandle
  input_ids : List Nat
  max_new_tokens : Nat
  num_beams : Nat
  early_stopping : Bool
deriving DecidableEq

/-- Result of one `summarize` call: the final object state, the returned
string or the Python-level failure, how many times `load_model` was
invoked, and the generation calls issued. -/
structure SummarizeResult where
  state : SummarizerState
  result : Except PyError String
  loadCalls : Nat
  genCalls : List GenCall

/-- State of the object after the lazy-load step at the top of
`summarize` (`if not self.is_loaded: self.load_model()`). -/
def ensure_loaded (env : Env) (s : SummarizerState) : SummarizerState :=
  if s.is_loaded then s else (load_model env s).1

/-- Embedding of `DialogueSummarizer.summarize`.  Mirrors the source
line by line: lazy load, prompt construction, tokenization (failing with
`nullTokenizer` when the tokenizer attribute is `None`), generation with
`max_new_tokens = max_length`, `num_beams = 4`, `early_stopping = True`
(failing with `nullModel` when the model attribute is `None`), then
decoding of `outputs[0]` with `skip_special_tokens = True`.  There is no
guard for the unloaded state other than these null-dereference
failures. -/
def summarize (env : Env) (s : SummarizerState) (dialogue method : String)
    (max_length : Nat) : SummarizeResult :=
  let s1 := ensure_loaded env s
  let loads := if s.is_loaded then 0 else 1
  let prompt := create_prompt dialogue method
  match s1.tokenizer with
  | none => ⟨s1, Except.error PyError.nullTokenizer, loads, []⟩
  | some tok =>
      let input_ids := env.tokenize tok prompt
      match s1.model with
      | none => ⟨s1, Except.error PyError.nullModel, loads, []⟩
      | some m =>
          let call : GenCall := ⟨m, input_ids, max_length, 4, true⟩
          match env.generate m input_ids max_length 4 true with
          | [] => ⟨s1, Except.error PyError.indexError, loads, [call]⟩
          | out :: _ =>
              ⟨s1, Except.ok (env.decode tok out true), loads, [call]⟩

end DialogueSummarizer

open DialogueSummarizer

/-- One externally visible operation on a summarizer object.  Each
operation carries its own environment so a trace can mix failing and
succeeding interactions with the external library. -/
inductive Op where
  | load (env : Env)
  | summarizeOp (env : Env) (dialogue method : String) (max_length : Nat)

/-- Apply one operation to the object state. -/
def runOp (s : SummarizerState) : Op → SummarizerState
  | Op.load env => (load_model env s).1
  | Op.summarizeOp env d m ml => (summarize env s d m ml).state

/-- Run a sequence of operations from a freshly constructed object. -/
def runOps (model_name : String) (ops : List Op) : SummarizerState :=
  ops.foldl runOp (init model_name)

/-- The spec's handle invariant: model and tokenizer are both unset or
both set. -/
def handlesTogether (s : SummarizerState) : Prop :=
  s.model.isSome = s.tokenizer.isSome

instance (s : SummarizerState) : Decidable (handlesTogether s) := by
  unfold handlesTogether; infer_instance

/-- Number of occurrences of `pat` as a contiguous substring of `s`:
one per starting position (every suffix of `s`, the empty one included,
contributes 1 when `pat` is a prefix of it). -/
def countOcc (pat : List Char) : List Char → Nat
  | [] => if pat.isPrefixOf [] then 1 else 0
  | c :: t => (if pat.isPrefixOf (c :: t) then 1 else 0) + countOcc pat t

/-- Environment in which both acquisitions succeed. -/
def goodEnv : Env where
  modelResult := fun _ => Except.ok 1
  tokenizerResult := fun _ => Except.ok 2
  tokenize := fun tok p => [tok, p.length]
  generate := fun m ids ml _ _ => [ids ++ [m, ml]]
  decode := fun _ ids _ => "summary of " ++ toString ids.length ++ " ids"

/-- Environment in which model acquisition itself fails. -/
def failEnv : Env where
  modelResult := fun _ => Except.error "no network"
  tokenizerResult := fun _ => Except.error "no network"
  tokenize := fun _ _ => []
  generate := fun _ _ _ _ _ => []
  decode := fun _ _ _ => ""

/-- Environment in which model acquisition succeeds but tokenizer
acquisition fails, i.e. the load fails partway. -/
def badTokEnv : Env where
  modelResult := fun _ => Except.ok 1
  tokenizerResult := fun _ => Except.error "connection failed"
  tokenize := fun _ _ => []
  generate := fun _ _ _ _ _ => []
  decode := fun _ _ _ => ""

/-- A dialogue equal to the one-shot example text minus its leading
`"Dialogue:\n"` line header.  It does not contain the example, yet the
one-shot prompt built from it recreates a second occurrence of the
example across the `"\n\nDialogue:\n"` separator. -/
def overlapDialogue : String := get_one_shot_example.drop 10

/-- A list `l` is always a prefix of itself extended on the right. -/
lemma isPrefixOf_append_self (l r : List Char) : l.isPrefixOf (l ++ r) = true := by
  induction l with
  | nil => simp [List.isPrefixOf]
  | cons a as ih => simp [List.isPrefixOf, ih]

/-- A pattern occurs at least once in any list that starts with it. -/
lemma one_le_countOcc_append_self (pat rest : List Char) :
    1 ≤ countOcc pat (pat ++ rest) := by
  have hp : pat.isPrefixOf (pat ++ rest) = true := isPrefixOf_append_self pat rest
  cases hpr : pat ++ rest with
  | nil => rw [hpr] at hp; simp [countOcc, hp]
  | cons c t => rw [hpr] at hp; simp [countOcc, hp]

set_option maxRecDepth 10000

/-- The `load_model` embedding never unsets the tokenizer when the model
is unset: if the tokenizer handle is set after a load attempt, so is the
model handle. -/
lemma load_model_tokImp (env : Env) {s : SummarizerState}
    (h : s.tokenizer.isSome = true → s.model.isSome = true) :
    (load_model env s).1.tokenizer.isSome = true →
    (load_model env s).1.model.isSome = true := by
  cases hmr : env.modelResult s.model_name with
  | error e => simpa [load_model, hmr] using h
  | ok m =>
    cases htr : env.tokenizerResult s.model_name with
    | error e => simp [load_model, hmr, htr]
    | ok t => simp [load_model, hmr, htr]

/-- The lazy-load step preserves the one-sided handle implication. -/
lemma ensure_loaded_tokImp (env : Env) {s : SummarizerState}
    (h : s.tokenizer.isSome = true → s.model.isSome = true) :
    (ensure_loaded env s).tokenizer.isSome = true →
    (ensure_loaded env s).model.isSome = true := by
  rw [ensure_loaded]
  cases hl : s.is_loaded with
  | true => simpa using h
  | false => simpa using load_model_tokImp env h

/-- The only state mutation `summarize` performs is the lazy-load step at
its top: its final object state is exactly `ensure_loaded`. -/
lemma summarize_state_eq (env : Env) (s : SummarizerState) (d meth : String) (ml : Nat) :
    (summarize env s d meth ml).state = ensure_loaded env s := by
  simp only [summarize]
  repeat' split
  all_goals rfl

/-- Every single operation preserves the one-sided handle implication. -/
lemma runOp_tokImp (s : SummarizerState) (op : Op)
    (h : s.tokenizer.isSome = true → s.model.isSome = true) :
    (runOp s op).tokenizer.isSome = true → (runOp s op).model.isSome = true := by
  cases op with
  | load env => exact load_model_tokImp env h
  | summarizeOp env d meth ml =>
    rw [runOp, summarize_state_eq]
    exact ensure_loaded_tokImp env h

/-- Claim C1, counterexample.  The spec's invariant "Model Handle and
Tokenizer Handle are either both unset or both set" fails on the code:
in `load_model`, `self.model` is assigned before `self.tokenizer`, and
the exception handler does not reset it, so a load in which model
acquisition succeeds and tokenizer acquisition fails leaves the model
handle set and the tokenizer handle unset.  Here: a fresh object, one
`load_model` call against `badTokEnv`. -/
theorem handles_invariant_counterexample :
    (runOps defaultModelName [Op.load badTokEnv]).model = some 1 ∧
    (runOps defaultModelName [Op.load badTokEnv]).tokenizer = none ∧
    ¬ handlesTogether (runOps defaultModelName [Op.load badTokEnv]) := by
  refine ⟨rfl, rfl, ?_⟩
  intro h
  simp [runOps, runOp, load_model, badTokEnv, init, handlesTogether] at h

/-- Claim C1, amended.  What does hold after every sequence of
operations (construction, `load_model`, `summarize` against arbitrary
environments): the tokenizer handle is set only if the model handle is
set.  The converse direction is refuted by the counterexample above. -/
theorem runOps_tokenizer_implies_model (name : String) (ops : List Op) :
    (runOps name ops).tokenizer.isSome = true →
    (runOps name ops).model.isSome = true := by
  have general : ∀ (l : List Op) (s : SummarizerState),
      (s.tokenizer.isSome = true → s.model.isSome = true) →
      ((l.foldl runOp s).tokenizer.isSome = true →
        (l.foldl runOp s).model.isSome = true) := by
    intro l
    induction l with
    | nil => intro s h; exact h
    | cons op t ih => intro s h; exact ih (runOp s op) (runOp_tokImp s op h)
  exact general ops (init name) (by simp [init])

/-- Witness for the amended C1 theorem at a concrete trace: one fully
successful load, after which the tokenizer handle is set and the theorem
yields that the model handle is set. -/
theorem runOps_tokenizer_implies_model_witness :
    (runOps defaultModelName [Op.load goodEnv]).tokenizer.isSome = true ∧
    (runOps defaultModelName [Op.load goodEnv]).model.isSome = true :=
  ⟨by decide, runOps_tokenizer_implies_model defaultModelName [Op.load goodEnv] (by decide)⟩

/-- Claim C2.  `load_model` catches every failure of the external
acquisition (whether the model or the tokenizer acquisition raised),
reports it only through the diagnostic message list, and leaves
`is_loaded` false; when both acquisitions succeed it sets `is_loaded`
true.  Non-propagation is structural: the embedding of `load_model` is a
total function into a plain state/message pair, with no error outcome,
mirroring the source's `try/except` that swallows the exception. -/
theorem load_model_error_handling (env : Env) (s : SummarizerState) :
    (∀ e, env.modelResult s.model_name = Except.error e →
      (load_model env s).1.is_loaded = false ∧
      (load_model env s).2 = ["❌ Error loading model: " ++ e]) ∧
    (∀ m e, env.modelResult s.model_name = Except.ok m →
      env.tokenizerResult s.model_name = Except.error e →
      (load_model env s).1.is_loaded = false ∧
      (load_model env s).2 = ["❌ Error loading model: " ++ e]) ∧
    (∀ m t, env.modelResult s.model_name = Except.ok m →
      env.tokenizerResult s.model_name = Except.ok t →
      (load_model env s).1.is_loaded = true ∧
      (load_model env s).2 = ["✅ Model " ++ s.model_name ++ " loaded successfully!"]) := by
  refine ⟨fun e he => ?_, fun m e hm hte => ?_, fun m t hm ht => ?_⟩
  · simp [load_model, he]
  · simp [load_model, hm, hte]
  · simp [load_model, hm, ht]

/-- Witness for C2 at three concrete environments: model acquisition
fails, tokenizer acquisition fails, both succeed. -/
theorem load_model_error_handling_witness :
    ((load_model failEnv (init "m")).1.is_loaded = false ∧
      (load_model failEnv (init "m")).2 = ["❌ Error loading model: " ++ "no network"]) ∧
    ((load_model badTokEnv (init "m")).1.is_loaded = false ∧
      (load_model badTokEnv (init "m")).2 = ["❌ Error loading model: " ++ "connection failed"]) ∧
    ((load_model goodEnv (init "m")).1.is_loaded = true ∧
      (load_model goodEnv (init "m")).2 = ["✅ Model " ++ "m" ++ " loaded successfully!"]) :=
  ⟨(load_model_error_handling failEnv (init "m")).1 "no network" rfl,
   (load_model_error_handling badTokEnv (init "m")).2.1 1 "connection failed" rfl rfl,
   (load_model_error_handling goodEnv (init "m")).2.2 1 2 rfl rfl⟩

/-- Claim C3.  Starting from an unloaded object with both handles unset,
when the external acquisition keeps failing, `summarize` still performs
the load attempt (loadCalls = 1), proceeds past it, and then fails with
the null-handle error from invoking the absent tokenizer — the
generation capability is never reached and no dedicated unloaded-state
error exists in the embedding's error type. -/
theorem summarize_unloaded_null_tokenizer (env : Env) (s : SummarizerState)
    (d meth : String) (ml : Nat)
    (hl : s.is_loaded = false) (_hmn : s.model = none) (ht : s.tokenizer = none)
    (hfail : ∀ m t, ¬(env.modelResult s.model_name = Except.ok m ∧
      env.tokenizerResult s.model_name = Except.ok t)) :
    (summarize env s d meth ml).loadCalls = 1 ∧
    (summarize env s d meth ml).result = Except.error PyError.nullTokenizer ∧
    (summarize env s d meth ml).genCalls = [] := by
  have hs1 : (ensure_loaded env s).tokenizer = none := by
    rw [ensure_loaded, hl]
    simp only [Bool.false_eq_true, if_false]
    cases hmr : env.modelResult s.model_name with
    | error e => simp [load_model, hmr, ht]
    | ok m =>
      cases htr : env.tokenizerResult s.model_name with
      | error e => simp [load_model, hmr, htr, ht]
      | ok t => exact absurd ⟨hmr, htr⟩ (hfail m t)
  refine ⟨?_, ?_, ?_⟩ <;> simp [summarize, hs1, hl]

/-- Witness for C3: a fresh object summarizing against the always-failing
environment. -/
theorem summarize_unloaded_null_tokenizer_witness :
    (summarize failEnv (init "m") "hello" "few-shot" 50).loadCalls = 1 ∧
    (summarize failEnv (init "m") "hello" "few-shot" 50).result =
      Except.error PyError.nullTokenizer ∧
    (summarize failEnv (init "m") "hello" "few-shot" 50).genCalls = [] :=
  summarize_unloaded_null_tokenizer failEnv (init "m") "hello" "few-shot" 50
    rfl rfl rfl (fun m t h => by simp [failEnv] at h)

/-- Claim C4.  Each `summarize` call invokes `load_model` exactly once
when the loaded flag is false on entry and zero times when it is true;
in the embedding the load attempt is the first step of `summarize`,
before prompt construction and generation. -/
theorem summarize_load_call_count (env : Env) (s : SummarizerState)
    (d meth : String) (ml : Nat) :
    (summarize env s d meth ml).loadCalls = if s.is_loaded then 0 else 1 := by
  simp only [summarize]
  repeat' split
  all_goals rfl

/-- Claim C5.  Whenever `summarize` reaches generation (both handles
present after the lazy-load step), the generation capability is invoked
exactly once, with the tokenized prompt, `max_new_tokens = max_length`
(a new-tokens bound, not a total-sequence bound), `num_beams = 4` and
`early_stopping = true`; and whenever generation returns a non-empty
batch, the returned string is exactly the decode of the first sequence
with special tokens skipped — no trimming or post-processing. -/
theorem summarize_generation_contract (env : Env) (s : SummarizerState)
    (d meth : String) (ml : Nat) (tok : TokenizerHandle) (m : ModelHandle)
    (ht : (ensure_loaded env s).tokenizer = some tok)
    (hm : (ensure_loaded env s).model = some m) :
    (summarize env s d meth ml).genCalls =
      [⟨m, env.tokenize tok (create_prompt d meth), ml, 4, true⟩] ∧
    ∀ out tail,
      env.generate m (env.tokenize tok (create_prompt d meth)) ml 4 true = out :: tail →
      (summarize env s d meth ml).result = Except.ok (env.decode tok out true) := by
  constructor
  · cases hg : env.generate m (env.tokenize tok (create_prompt d meth)) ml 4 true with
    | nil => simp [summarize, ht, hm, hg]
    | cons out tail => simp [summarize, ht, hm, hg]
  · intro out tail hg
    simp [summarize, ht, hm, hg]

/-- Witness for C5: a fresh object against the fully successful
environment, with a zero-shot prompt and a budget of 7 tokens. -/
theorem summarize_generation_contract_witness :
    (summarize goodEnv (init "m") "d" "zero-shot" 7).genCalls =
      [⟨1, goodEnv.tokenize 2 (create_prompt "d" "zero-shot"), 7, 4, true⟩] ∧
    (summarize goodEnv (init "m") "d" "zero-shot" 7).result =
      Except.ok (goodEnv.decode 2
        (goodEnv.tokenize 2 (create_prompt "d" "zero-shot") ++ [1, 7]) true) :=
  ⟨(summarize_generation_contract goodEnv (init "m") "d" "zero-shot" 7 2 1 rfl rfl).1,
   (summarize_generation_contract goodEnv (init "m") "d" "zero-shot" 7 2 1 rfl rfl).2
     (goodEnv.tokenize 2 (create_prompt "d" "zero-shot") ++ [1, 7]) [] rfl⟩

/-- Claim C6.  The prompt builder is a pure total function (it is a plain
Lean function of the two strings, with no state argument), and for every
dialogue and every method string its output contains the dialogue as a
contiguous substring. -/
theorem create_prompt_total_contains_dialogue (d meth : String) :
    ∃ pre post, create_prompt d meth = pre ++ d ++ post := by
  unfold create_prompt
  split_ifs with h1 h2 h3
  · exact ⟨"Summarize the following conversation:\n\n", "\n\nSummary:", rfl⟩
  · exact ⟨get_one_shot_example ++ "\n\nDialogue:\n", "\n\nSummary:", rfl⟩
  · exact ⟨get_few_shot_examples ++ "\n\nDialogue:\n", "\n\nSummary:", rfl⟩
  · exact ⟨"Summarize this dialogue: ", "", (String.append_empty _).symm⟩

/-- Claim C7.  For `method = "zero-shot"` the prompt is exactly the fixed
header, a blank line, the dialogue, a blank line, and `"Summary:"`; in
particular at dialogue `"X"` it is the literal from the spec. -/
theorem create_prompt_zero_shot (d : String) :
    create_prompt d "zero-shot" =
      "Summarize the following conversation:\n\n" ++ d ++ "\n\nSummary:" ∧
    create_prompt "X" "zero-shot" =
      "Summarize the following conversation:\n\nX\n\nSummary:" := by
  refine ⟨?_, by decide⟩
  rw [create_prompt, if_pos rfl]

/-- Claim C8, counterexample.  `overlapDialogue` (the one-shot example
minus its leading `"Dialogue:\n"`) does not contain the example text,
yet the one-shot prompt built from it contains two occurrences of the
example: the `"\n\nDialogue:\n"` separator followed by the dialogue
recreates the example across the boundary, so "exactly one occurrence"
fails for a dialogue that is example-free. -/
theorem one_shot_exactly_once_counterexample :
    countOcc get_one_shot_example.data overlapDialogue.data = 0 ∧
    countOcc get_one_shot_example.data
      (create_prompt overlapDialogue "one-shot").data = 2 := by
  constructor
  · decide
  · decide

/-- Claim C8, amended.  For every dialogue the one-shot prompt is exactly
the fixed Tom/watch example followed by `"\n\nDialogue:\n" ++ d ++
"\n\nSummary:"`, hence contains at least one occurrence of the example
and ends with that suffix; exactly one occurrence is not guaranteed even
for dialogues that do not contain the example (see the counterexample). -/
theorem create_prompt_one_shot (d : String) :
    create_prompt d "one-shot" =
      get_one_shot_example ++ "\n\nDialogue:\n" ++ d ++ "\n\nSummary:" ∧
    1 ≤ countOcc get_one_shot_example.data (create_prompt d "one-shot").data := by
  have heq : create_prompt d "one-shot" =
      get_one_shot_example ++ "\n\nDialogue:\n" ++ d ++ "\n\nSummary:" := by
    rw [create_prompt, if_neg (by decide), if_pos rfl]
  refine ⟨heq, ?_⟩
  have hdata : (create_prompt d "one-shot").data =
      get_one_shot_example.data ++
        ("\n\nDialogue:\n".data ++ d.data ++ "\n\nSummary:".data) := by
    rw [heq]
    simp [String.data_append, List.append_assoc]
  rw [hdata]
  exact one_le_countOcc_append_self _ _

/-- Claim C9.  For every dialogue the few-shot prompt is exactly the
Tom/watch example, a blank-line separator, the May/picnic example, then
`"\n\nDialogue:\n" ++ d ++ "\n\nSummary:"` — so it contains both fixed
examples in that order, separated by a blank line, with the dialogue
slot after them. -/
theorem create_prompt_few_shot (d : String) :
    create_prompt d "few-shot" =
      get_one_shot_example ++ "\n\n" ++ second_example ++
        "\n\nDialogue:\n" ++ d ++ "\n\nSummary:" := by
  have hfew : get_few_shot_examples =
      get_one_shot_example ++ "\n\n" ++ second_example := by decide
  rw [create_prompt, if_neg (by decide), if_neg (by decide), if_pos rfl, hfew]

/-- Claim C10.  Any method string other than the three recognized
literals (matching is exact and case-sensitive) falls through to the
minimal default template. -/
theorem create_prompt_unrecognized_method (d meth : String)
    (h1 : meth ≠ "zero-shot") (h2 : meth ≠ "one-shot") (h3 : meth ≠ "few-shot") :
    create_prompt d meth = "Summarize this dialogue: " ++ d := by
  rw [create_prompt, if_neg h1, if_neg h2, if_neg h3]

/-- Witness for C10 at the spec's own example, `method = "invalid"`. -/
theorem create_prompt_unrecognized_method_witness :
    create_prompt "X" "invalid" = "Summarize this dialogue: " ++ "X" :=
  create_prompt_unrecognized_method "X" "invalid" (by decide) (by decide) (by decide)

end DialogueSum
